import Mathlib

/-!
Verification of the PyChanEditor interactive editing engine
(`editor/application.py`, `editor/gui/editcontainer.py`).

The editor state relevant to the claims is embedded shallowly:

* geometry of the selected widget and of the four corner markers, with the
  resize state machine `cb_on_marker_dragged`;
* the widget tree with the hit tester `get_widget_in`;
* the selection bookkeeping `select_widget` / `recreate_markers` /
  `cb_on_widget_selected`;
* the property write-back `cb_property_changed`;
* the file opener `open_gui` and palette insertion `tool_clicked`;
* `EditContainer.get_most_bottom_right_position` / `resize_to_content`.

Coordinates are integers (pychan widget positions and sizes are ints).
Positions of markers and of the selected widget are expressed in the
edit-surface (scroll-area) coordinate space, which is what
`get_pos_in_scrollarea` returns and what marker `.position`/`.x`/`.y`
hold when the edit window sits at the origin of the scroll area (its
absolute position is `(0, MENU_HEIGHT + TOOLBAR_HEIGHT)`), the situation
the editor sets up in `init_gui`.
-/

/-- `EditorApplication.MENU_HEIGHT`. -/
def MENU_HEIGHT : Int := 30

/-- `EditorApplication.TOOLBAR_HEIGHT`. -/
def TOOLBAR_HEIGHT : Int := 60

/-- Geometry of the selected widget in edit-surface space: pychan
`x`, `y`, `width`, `height`. -/
structure Geom where
  x : Int
  y : Int
  width : Int
  height : Int
deriving DecidableEq

/-- Positions of the four corner markers (`self._markers["TL"]` … ), each a
pychan `position` pair in edit-surface space. -/
structure Markers where
  tl : Int × Int
  tr : Int × Int
  br : Int × Int
  bl : Int × Int
deriving DecidableEq

/-- `EditorApplication.position_markers`: starting from the selected
widget's position in the scroll area, the code subtracts 5 from both
coordinates, places TL, then walks the accumulator right by `width`
for TR, down by `height` for BR and back left by `width` for BL. -/
def position_markers (g : Geom) : Markers :=
  let x0 := g.x - 5
  let y0 := g.y - 5
  let tl := (x0, y0)
  let x1 := x0 + g.width
  let tr := (x1, y0)
  let y1 := y0 + g.height
  let br := (x1, y1)
  let x2 := x1 - g.width
  let bl := (x2, y1)
  { tl := tl, tr := tr, br := br, bl := bl }

/-- The marker identity decoded from the last two characters of the
marker widget's name (`widget.name[-2:]` in `cb_on_marker_dragged`). -/
inductive MarkerName where
  | TL
  | TR
  | BR
  | BL
deriving DecidableEq

/-- The state touched by the resize state machine: the selected widget's
geometry and the four marker positions. -/
structure EditState where
  sel : Geom
  markers : Markers
deriving DecidableEq

/-- The acceptance test of `cb_on_marker_dragged`: the prospective
position of the dragged marker (`old + rel`, where `old` is the marker's
current position in the scroll area) must not cross the diagonally
opposite marker's stored position on either axis; the code early-returns
(rejects the whole delta) otherwise. -/
def marker_drag_accepted (s : EditState) (m : MarkerName) (relX relY : Int) : Bool :=
  match m with
  | .TL => decide (s.markers.tl.1 + relX < s.markers.br.1)
        && decide (s.markers.tl.2 + relY < s.markers.br.2)
  | .TR => decide (s.markers.bl.1 < s.markers.tr.1 + relX)
        && decide (s.markers.tr.2 + relY < s.markers.bl.2)
  | .BR => decide (s.markers.tl.1 < s.markers.br.1 + relX)
        && decide (s.markers.tl.2 < s.markers.br.2 + relY)
  | .BL => decide (s.markers.bl.1 + relX < s.markers.tr.1)
        && decide (s.markers.tr.2 < s.markers.bl.2 + relY)

/-- `EditorApplication.cb_on_marker_dragged` for marker `m` and mouse
delta `(relX, relY)`.  On rejection the handler returns before any
mutation.  On acceptance it updates the selected widget's geometry and
moves the dragged marker by the delta, then calls `update_editor`, whose
`position_markers` recomputes every marker position from the new
geometry (overwriting the per-marker move). -/
def cb_on_marker_dragged (s : EditState) (m : MarkerName) (relX relY : Int) : EditState :=
  if marker_drag_accepted s m relX relY then
    let g := s.sel
    let g' : Geom :=
      match m with
      | .TL => { x := g.x + relX, y := g.y + relY,
                 width := g.width - relX, height := g.height - relY }
      | .TR => { x := g.x, y := g.y + relY,
                 width := g.width + relX, height := g.height - relY }
      | .BR => { x := g.x, y := g.y,
                 width := g.width + relX, height := g.height + relY }
      | .BL => { x := g.x + relX, y := g.y,
                 width := g.width - relX, height := g.height + relY }
    { sel := g', markers := position_markers g' }
  else s

/-- The markers bracket the selected widget exactly as `position_markers`
places them; this holds whenever the markers were last laid out by
`update_editor` (after every selection change and every accepted drag). -/
def markers_consistent (s : EditState) : Prop :=
  s.markers = position_markers s.sel

instance (s : EditState) : Decidable (markers_consistent s) := by
  unfold markers_consistent
  infer_instance

/-- A whole drag interaction: the sequence of `mouseDragged` deltas
processed by `cb_on_marker_dragged`, folded over the state. -/
def run_marker_drags (s : EditState) (steps : List (MarkerName × Int × Int)) : EditState :=
  steps.foldl (fun st step => cb_on_marker_dragged st step.1 step.2.1 step.2.2) s

lemma cb_on_marker_dragged_preserves_consistent (s : EditState) (m : MarkerName)
    (relX relY : Int) (h : markers_consistent s) :
    markers_consistent (cb_on_marker_dragged s m relX relY) := by
  unfold cb_on_marker_dragged
  split
  · cases m <;> simp [markers_consistent]
  · exact h

lemma run_marker_drags_preserves_consistent (s : EditState)
    (steps : List (MarkerName × Int × Int)) (h : markers_consistent s) :
    markers_consistent (run_marker_drags s steps) := by
  induction steps generalizing s with
  | nil => exact h
  | cons step rest ih =>
      exact ih _ (cb_on_marker_dragged_preserves_consistent s step.1 step.2.1 step.2.2 h)

lemma accepted_drag_positive (s : EditState) (m : MarkerName) (relX relY : Int)
    (hc : markers_consistent s)
    (ha : marker_drag_accepted s m relX relY = true) :
    0 < (cb_on_marker_dragged s m relX relY).sel.width ∧
      0 < (cb_on_marker_dragged s m relX relY).sel.height := by
  unfold markers_consistent at hc
  have h2 := ha
  unfold cb_on_marker_dragged
  rw [if_pos ha]
  cases m <;>
    simp only [marker_drag_accepted, hc, position_markers, Bool.and_eq_true,
      decide_eq_true_eq] at h2 <;>
    dsimp only <;>
    omega

/-- A concrete consistent editor state: the selected widget sits at
(100, 100) with size 50×50, markers laid out by `position_markers`
(TL = (95, 95), TR = (145, 95), BR = (145, 145), BL = (95, 145)). -/
def sampleEditState : EditState :=
  { sel := { x := 100, y := 100, width := 50, height := 50 },
    markers := position_markers { x := 100, y := 100, width := 50, height := 50 } }

/-- C1: starting from a state whose markers bracket the selected widget,
after any sequence of handle-drag deltas processed by
`cb_on_marker_dragged`, any further delta the state machine accepts
leaves the selected widget with strictly positive width and height
(crossing deltas having been rejected whole by the early returns). -/
theorem resize_keeps_size_positive (s : EditState) (h : markers_consistent s)
    (steps : List (MarkerName × Int × Int)) (m : MarkerName) (relX relY : Int)
    (ha : marker_drag_accepted (run_marker_drags s steps) m relX relY = true) :
    0 < (cb_on_marker_dragged (run_marker_drags s steps) m relX relY).sel.width ∧
      0 < (cb_on_marker_dragged (run_marker_drags s steps) m relX relY).sel.height :=
  accepted_drag_positive (run_marker_drags s steps) m relX relY
    (run_marker_drags_preserves_consistent s steps h) ha

/-- Witness for C1: from the sample state, after a BR drag of (3, 4),
an accepted TL drag of (1, 2) leaves width and height positive. -/
theorem resize_keeps_size_positive_witness :
    0 < (cb_on_marker_dragged
          (run_marker_drags sampleEditState [(MarkerName.BR, 3, 4)])
          MarkerName.TL 1 2).sel.width ∧
      0 < (cb_on_marker_dragged
          (run_marker_drags sampleEditState [(MarkerName.BR, 3, 4)])
          MarkerName.TL 1 2).sel.height :=
  resize_keeps_size_positive sampleEditState (by decide)
    [(MarkerName.BR, 3, 4)] MarkerName.TL 1 2 (by decide)

/-- C3: `position_markers` places TL at (left−5, top−5), TR at
(right−5, top−5), BR at (right−5, bottom−5) and BL at (left−5, bottom−5)
of the selection's bounds in edit-surface space; for a widget at
(100, 100) of size 50×50 this yields (95, 95), (145, 95), (145, 145)
and (95, 145). -/
theorem position_markers_places_corners (g : Geom) :
    position_markers g =
      { tl := (g.x - 5, g.y - 5),
        tr := (g.x + g.width - 5, g.y - 5),
        br := (g.x + g.width - 5, g.y + g.height - 5),
        bl := (g.x - 5, g.y + g.height - 5) } ∧
    position_markers { x := 100, y := 100, width := 50, height := 50 } =
      { tl := (95, 95), tr := (145, 95), br := (145, 145), bl := (95, 145) } := by
  constructor
  · unfold position_markers
    simp only [Markers.mk.injEq, Prod.mk.injEq, and_true, true_and]
    omega
  · decide

/-- C7: a delta the resize state machine rejects changes nothing at all:
the selected widget's position and size and every marker position are
left as they were. -/
theorem rejected_drag_leaves_state_unchanged (s : EditState) (m : MarkerName)
    (relX relY : Int) (h : marker_drag_accepted s m relX relY = false) :
    cb_on_marker_dragged s m relX relY = s := by
  unfold cb_on_marker_dragged
  rw [if_neg]
  simp [h]

/-- Witness for C7, the spec's scenario: dragging the TL handle by
(+60, +60) when BR sits at (145, 145) is rejected and leaves the whole
state unchanged. -/
theorem rejected_drag_leaves_state_unchanged_witness :
    marker_drag_accepted sampleEditState MarkerName.TL 60 60 = false ∧
      cb_on_marker_dragged sampleEditState MarkerName.TL 60 60 = sampleEditState :=
  ⟨by decide, rejected_drag_leaves_state_unchanged sampleEditState MarkerName.TL 60 60 (by decide)⟩

/-!
The widget tree.  A pychan widget is, for the hit tester, one of three
shapes: a container exposing an ordered `children` sequence, a scroll
area exposing a single `content` slot (possibly empty), or a plain leaf
widget.  Each carries its absolute position (`getAbsolutePos`) and its
`width`/`height`, and a numeric identity standing for Python object
identity (pychan widget equality is identity). -/

mutual
inductive WTree where
  | container : Nat → Int → Int → Int → Int → WForest → WTree
  | scrollarea : Nat → Int → Int → Int → Int → WContent → WTree
  | leaf : Nat → Int → Int → Int → Int → WTree

inductive WForest where
  | nil : WForest
  | cons : WTree → WForest → WForest

inductive WContent where
  | cnone : WContent
  | csome : WTree → WContent
end

/-- Object identity of a widget. -/
def WTree.wid : WTree → Nat
  | .container i _ _ _ _ _ => i
  | .scrollarea i _ _ _ _ _ => i
  | .leaf i _ _ _ _ => i

/-- `widget.getAbsolutePos()[0]`. -/
def WTree.absX : WTree → Int
  | .container _ ax _ _ _ _ => ax
  | .scrollarea _ ax _ _ _ _ => ax
  | .leaf _ ax _ _ _ => ax

/-- `widget.getAbsolutePos()[1]`. -/
def WTree.absY : WTree → Int
  | .container _ _ ay _ _ _ => ay
  | .scrollarea _ _ ay _ _ _ => ay
  | .leaf _ _ ay _ _ => ay

/-- `widget.width`. -/
def WTree.width : WTree → Int
  | .container _ _ _ w _ _ => w
  | .scrollarea _ _ _ w _ _ => w
  | .leaf _ _ _ w _ => w

/-- `widget.height`. -/
def WTree.height : WTree → Int
  | .container _ _ _ _ h _ => h
  | .scrollarea _ _ _ _ h _ => h
  | .leaf _ _ _ _ h => h

/-- The containment test of `fife.Rect(x, y, w, h).contains(point)`,
modelling the external toolkit's bounds query: the point lies in the
half-open box anchored at `(rx, ry)` of extent `(rw, rh)`. -/
def rectContains (rx ry rw rh px py : Int) : Bool :=
  decide (rx ≤ px) && decide (px < rx + rw) && decide (ry ≤ py) && decide (py < ry + rh)

/-- The query point of `get_widget_in`: the event coordinates shifted
down by the menu and toolbar bands
(`fife.Point(x_pos, y_pos + self.MENU_HEIGHT + self.TOOLBAR_HEIGHT)`). -/
def queryY (yPos : Int) : Int := yPos + MENU_HEIGHT + TOOLBAR_HEIGHT


/-- The `found = self.get_widget_in(...); if found: return found;
return widget` pattern of `get_widget_in`: take the inner result when
the recursion resolved, the enclosing widget otherwise. -/
def hit_fallback (widget : WTree) (inner : Option WTree) : Option WTree :=
  match inner with
  | some found => some found
  | none => some widget

mutual
/-- `EditorApplication.get_widget_in`: if the shifted query point lies
outside the widget's absolute bounds, resolve to nothing; otherwise try
the children in order (first resolving child wins), or the single
`content` slot, and fall back to the widget itself. -/
def get_widget_in (widget : WTree) (xPos yPos : Int) : Option WTree :=
  if rectContains widget.absX widget.absY widget.width widget.height xPos (queryY yPos) then
    match widget with
    | .container _ _ _ _ _ cs =>
        hit_fallback widget (get_widget_in_children cs xPos yPos)
    | .scrollarea _ _ _ _ _ (.csome content) =>
        hit_fallback widget (get_widget_in content xPos yPos)
    | .scrollarea _ _ _ _ _ .cnone => some widget
    | .leaf _ _ _ _ _ => some widget
  else none

/-- The `for child in widget.children` loop of `get_widget_in`: recurse
into each child in order and stop at the first that resolves. -/
def get_widget_in_children (cs : WForest) (xPos yPos : Int) : Option WTree :=
  match cs with
  | .nil => none
  | .cons c rest =>
      match get_widget_in c xPos yPos with
      | some found => some found
      | none => get_widget_in_children rest xPos yPos
end

lemma get_widget_in_container (i : Nat) (ax ay wd ht : Int) (cs : WForest) (xPos yPos : Int) :
    get_widget_in (.container i ax ay wd ht cs) xPos yPos =
      if rectContains ax ay wd ht xPos (queryY yPos) then
        hit_fallback (.container i ax ay wd ht cs) (get_widget_in_children cs xPos yPos)
      else none := by
  rfl

lemma get_widget_in_scroll_some (i : Nat) (ax ay wd ht : Int) (content : WTree)
    (xPos yPos : Int) :
    get_widget_in (.scrollarea i ax ay wd ht (.csome content)) xPos yPos =
      if rectContains ax ay wd ht xPos (queryY yPos) then
        hit_fallback (.scrollarea i ax ay wd ht (.csome content)) (get_widget_in content xPos yPos)
      else none := by
  rfl

lemma get_widget_in_scroll_empty (i : Nat) (ax ay wd ht : Int) (xPos yPos : Int) :
    get_widget_in (.scrollarea i ax ay wd ht .cnone) xPos yPos =
      if rectContains ax ay wd ht xPos (queryY yPos) then
        some (.scrollarea i ax ay wd ht .cnone)
      else none := by
  rfl

lemma get_widget_in_leaf (i : Nat) (ax ay wd ht : Int) (xPos yPos : Int) :
    get_widget_in (.leaf i ax ay wd ht) xPos yPos =
      if rectContains ax ay wd ht xPos (queryY yPos) then
        some (.leaf i ax ay wd ht)
      else none := by
  rfl

lemma get_widget_in_children_cons (c : WTree) (rest : WForest) (xPos yPos : Int) :
    get_widget_in_children (.cons c rest) xPos yPos =
      match get_widget_in c xPos yPos with
      | some found => some found
      | none => get_widget_in_children rest xPos yPos := by
  rfl

mutual
lemma get_widget_in_mem_bounds (w : WTree) (xPos yPos : Int) (n : WTree)
    (h : get_widget_in w xPos yPos = some n) :
    rectContains n.absX n.absY n.width n.height xPos (queryY yPos) = true := by
  match w with
  | .container i ax ay wd ht cs =>
      rw [get_widget_in_container] at h
      split at h
      case isTrue hr =>
        cases hc : get_widget_in_children cs xPos yPos with
        | some f =>
            rw [hc] at h
            simp only [hit_fallback] at h
            cases h
            exact get_widget_in_children_mem_bounds cs xPos yPos n hc
        | none =>
            rw [hc] at h
            simp only [hit_fallback] at h
            cases h
            simpa [WTree.absX, WTree.absY, WTree.width, WTree.height] using hr
      case isFalse hr => exact Option.noConfusion h
  | .scrollarea i ax ay wd ht (.csome content) =>
      rw [get_widget_in_scroll_some] at h
      split at h
      case isTrue hr =>
        cases hc : get_widget_in content xPos yPos with
        | some f =>
            rw [hc] at h
            simp only [hit_fallback] at h
            cases h
            exact get_widget_in_mem_bounds content xPos yPos n hc
        | none =>
            rw [hc] at h
            simp only [hit_fallback] at h
            cases h
            simpa [WTree.absX, WTree.absY, WTree.width, WTree.height] using hr
      case isFalse hr => exact Option.noConfusion h
  | .scrollarea i ax ay wd ht .cnone =>
      rw [get_widget_in_scroll_empty] at h
      split at h
      case isTrue hr =>
        cases h
        simpa [WTree.absX, WTree.absY, WTree.width, WTree.height] using hr
      case isFalse hr => exact Option.noConfusion h
  | .leaf i ax ay wd ht =>
      rw [get_widget_in_leaf] at h
      split at h
      case isTrue hr =>
        cases h
        simpa [WTree.absX, WTree.absY, WTree.width, WTree.height] using hr
      case isFalse hr => exact Option.noConfusion h

lemma get_widget_in_children_mem_bounds (cs : WForest) (xPos yPos : Int) (n : WTree)
    (h : get_widget_in_children cs xPos yPos = some n) :
    rectContains n.absX n.absY n.width n.height xPos (queryY yPos) = true := by
  match cs with
  | .nil => exact absurd h (by simp [get_widget_in_children])
  | .cons c rest =>
      rw [get_widget_in_children_cons] at h
      revert h
      cases hc : get_widget_in c xPos yPos with
      | some f =>
          intro h
          cases h
          exact get_widget_in_mem_bounds c xPos yPos n hc
      | none =>
          intro h
          exact get_widget_in_children_mem_bounds rest xPos yPos n h
end

lemma get_widget_in_outside (w : WTree) (xPos yPos : Int)
    (h : rectContains w.absX w.absY w.width w.height xPos (queryY yPos) = false) :
    get_widget_in w xPos yPos = none := by
  unfold get_widget_in
  rw [if_neg]
  simp [h]

/-- C2: hit-test resolution.  (1) A query point outside the root's
absolute bounds resolves to nothing.  (2) Any node returned has bounds
containing the (chrome-shifted) query point.  (3) A child that resolves
makes the whole child loop resolve to it, regardless of later siblings
(first-child-wins on overlap).  (4) A child that does not resolve passes
the query on to the remaining siblings in order.  (5) A container whose
bounds contain the point recurses into its children and (7) returns
itself when no child resolves; (6) a scroll widget recurses into its
single content slot the same way. -/
theorem get_widget_in_spec :
    (∀ (w : WTree) (xPos yPos : Int),
        rectContains w.absX w.absY w.width w.height xPos (queryY yPos) = false →
        get_widget_in w xPos yPos = none) ∧
    (∀ (w : WTree) (xPos yPos : Int) (n : WTree),
        get_widget_in w xPos yPos = some n →
        rectContains n.absX n.absY n.width n.height xPos (queryY yPos) = true) ∧
    (∀ (c : WTree) (rest : WForest) (xPos yPos : Int) (f : WTree),
        get_widget_in c xPos yPos = some f →
        get_widget_in_children (.cons c rest) xPos yPos = some f) ∧
    (∀ (c : WTree) (rest : WForest) (xPos yPos : Int),
        get_widget_in c xPos yPos = none →
        get_widget_in_children (.cons c rest) xPos yPos =
          get_widget_in_children rest xPos yPos) ∧
    (∀ (i : Nat) (ax ay wd ht xPos yPos : Int) (cs : WForest),
        rectContains ax ay wd ht xPos (queryY yPos) = true →
        get_widget_in (.container i ax ay wd ht cs) xPos yPos =
          hit_fallback (.container i ax ay wd ht cs) (get_widget_in_children cs xPos yPos)) ∧
    (∀ (i : Nat) (ax ay wd ht xPos yPos : Int) (ct : WTree),
        rectContains ax ay wd ht xPos (queryY yPos) = true →
        get_widget_in (.scrollarea i ax ay wd ht (.csome ct)) xPos yPos =
          hit_fallback (.scrollarea i ax ay wd ht (.csome ct)) (get_widget_in ct xPos yPos)) ∧
    (∀ (i : Nat) (ax ay wd ht xPos yPos : Int) (cs : WForest),
        rectContains ax ay wd ht xPos (queryY yPos) = true →
        get_widget_in_children cs xPos yPos = none →
        get_widget_in (.container i ax ay wd ht cs) xPos yPos =
          some (.container i ax ay wd ht cs)) := by
  refine ⟨?_, ?_, ?_, ?_, ?_, ?_, ?_⟩
  · exact fun w xPos yPos h => get_widget_in_outside w xPos yPos h
  · exact fun w xPos yPos n h => get_widget_in_mem_bounds w xPos yPos n h
  · intro c rest xPos yPos f hf
    rw [get_widget_in_children_cons, hf]
  · intro c rest xPos yPos hf
    rw [get_widget_in_children_cons, hf]
  · intro i ax ay wd ht xPos yPos cs h
    rw [get_widget_in_container, if_pos h]
  · intro i ax ay wd ht xPos yPos ct h
    rw [get_widget_in_scroll_some, if_pos h]
  · intro i ax ay wd ht xPos yPos cs h hn
    rw [get_widget_in_container, if_pos h, hn]
    rfl

/-- A 50×50 leaf widget whose top-left corner sits at the origin of the
edit surface (absolute position (0, 90) below the 30+60 chrome bands). -/
def sampleLeaf1 : WTree := .leaf 1 0 90 50 50

/-- A second 50×50 leaf widget exactly overlapping `sampleLeaf1`. -/
def sampleLeaf2 : WTree := .leaf 2 0 90 50 50

/-- Witness for C2: with two exactly overlapping siblings, the query
point (10, 10) resolves to the earlier sibling; and a query point to
the right of a 50-wide widget resolves to nothing. -/
theorem get_widget_in_spec_witness :
    get_widget_in_children (.cons sampleLeaf1 (.cons sampleLeaf2 .nil)) 10 10 =
        some sampleLeaf1 ∧
      get_widget_in sampleLeaf1 60 10 = none :=
  ⟨get_widget_in_spec.2.2.1 sampleLeaf1 (.cons sampleLeaf2 .nil) 10 10 sampleLeaf1 (by rfl),
   get_widget_in_spec.1 sampleLeaf1 60 10 (by rfl)⟩

/-!
Selection bookkeeping.  Widgets are referred to by their identity
(`WTree.wid` for tree nodes); `markers` holds the identities of the four
marker icons of `self._markers`, `widgets` the identities backing the
`WidgetItem` entries of the selector drop-down. -/

structure AppState where
  selected_widget : Option Nat
  combo_selected : Int
  widgets : List Nat
  markers : List Nat
  next_id : Nat
  marker_dragged : Bool
  widget_dragged : Bool
  old_x : Int
  old_y : Int
deriving DecidableEq

/-- `EditorApplication.recreate_markers`: `clear_markers` empties the
marker set; when a widget is selected, four fresh marker icons are
created and registered (fresh identities, modelling the new
`pychan.Icon` objects), then `update_editor` refreshes the overlay. -/
def recreate_markers (s : AppState) : AppState :=
  let s0 := { s with markers := [] }
  match s0.selected_widget with
  | some _ =>
      { s0 with
        markers := [s0.next_id, s0.next_id + 1, s0.next_id + 2, s0.next_id + 3],
        next_id := s0.next_id + 4 }
  | none => s0

/-- `EditorApplication.select_widget`: a widget that is currently one of
the markers is rejected outright (early return, nothing changes);
selecting nothing clears the selection and sets the drop-down index to
−1; selecting a widget stores it and points the drop-down at its entry;
both paths then rebuild the markers. -/
def select_widget (s : AppState) (widget : Option Nat) : AppState :=
  if (match widget with
      | some wid => s.markers.contains wid
      | none => false) then s
  else
    match widget with
    | none => recreate_markers { s with selected_widget := none, combo_selected := -1 }
    | some wid =>
        recreate_markers
          { s with selected_widget := some wid,
                   combo_selected := ((s.widgets.indexOf wid : Nat) : Int) }

/-- `EditorApplication.cb_on_widget_selected`: the press handler resets
the drag flag and anchor, skips everything while a marker drag is in
progress, otherwise hit-tests inside the widget that received the event;
a result equal to the receiver itself is turned into no selection. -/
def cb_on_widget_selected (s : AppState) (widget : WTree) (eventX eventY : Int) : AppState :=
  let s1 := { s with widget_dragged := false, old_x := eventX, old_y := eventY }
  if s1.marker_dragged then s1
  else
    let clicked := get_widget_in widget eventX eventY
    let clicked2 : Option Nat :=
      match clicked with
      | some n => if n.wid = widget.wid then none else some n.wid
      | none => none
    select_widget s1 clicked2

/-- C8: with no marker drag in progress, a press whose deepest hit-test
result is the event-receiving widget itself (empty container background)
sets the selection to none and the drop-down index to −1, rather than
selecting the container. -/
theorem click_on_background_clears_selection (s : AppState) (root : WTree)
    (eventX eventY : Int) (n : WTree)
    (hm : s.marker_dragged = false)
    (hh : get_widget_in root eventX eventY = some n)
    (hid : n.wid = root.wid) :
    (cb_on_widget_selected s root eventX eventY).selected_widget = none ∧
      (cb_on_widget_selected s root eventX eventY).combo_selected = -1 := by
  unfold cb_on_widget_selected
  simp only [hm, Bool.false_eq_true, if_false, hh, hid, if_pos]
  simp [select_widget, recreate_markers]

/-- An editor state with a widget selected, no markers and no drag in
progress. -/
def sampleAppState : AppState :=
  { selected_widget := some 5, combo_selected := 0, widgets := [5], markers := [],
    next_id := 6, marker_dragged := false, widget_dragged := false,
    old_x := 0, old_y := 0 }

/-- An empty container as the event receiver: 100×200, its top-left at
the origin of the edit surface (below the 30+60 chrome bands). -/
def sampleRoot : WTree := .container 0 0 90 100 200 .nil

/-- Witness for C8: clicking at (10, 10) inside the empty `sampleRoot`
container resolves to the container itself and clears the selection. -/
theorem click_on_background_clears_selection_witness :
    (cb_on_widget_selected sampleAppState sampleRoot 10 10).selected_widget = none ∧
      (cb_on_widget_selected sampleAppState sampleRoot 10 10).combo_selected = -1 :=
  click_on_background_clears_selection sampleAppState sampleRoot 10 10 sampleRoot
    rfl (by rfl) rfl

/-- C9: `select_widget` on a widget that is currently one of the four
markers is rejected: the selected widget, the drop-down index, the
existing markers — the whole state — are left unchanged. -/
theorem select_widget_rejects_markers (s : AppState) (wid : Nat)
    (h : s.markers.contains wid = true) :
    select_widget s (some wid) = s := by
  unfold select_widget
  exact if_pos h

/-- An editor state whose four markers 20–23 decorate selected widget 5. -/
def sampleMarkerState : AppState :=
  { selected_widget := some 5, combo_selected := 0, widgets := [5],
    markers := [20, 21, 22, 23], next_id := 24, marker_dragged := false,
    widget_dragged := false, old_x := 0, old_y := 0 }

/-- Witness for C9: selecting marker 21 changes nothing. -/
theorem select_widget_rejects_markers_witness :
    select_widget sampleMarkerState (some 21) = sampleMarkerState :=
  select_widget_rejects_markers sampleMarkerState 21 (by decide)

/-!
Property write-back, modelled for the geometry-bearing `PointAttr`
`position` (the attribute kind the claims' scenarios exercise).  The
external `attr.parse` is passed in as a function that returns `none`
exactly where the Python code raises `ParserError`. -/

/-- The slice of editor state touched by `cb_property_changed`: the
selected widget's geometry, the text currently held by the property
editor's field, and the marker positions. -/
structure PropEditState where
  geom : Geom
  editor_text : String
  markers : Markers
deriving DecidableEq

/-- How `update_property_window` seeds a `PointAttr` editor:
`"%i, %i" % value`. -/
def format_point (x y : Int) : String := toString x ++ ", " ++ toString y

/-- `EditorApplication.cb_property_changed` for the point-valued
`position` attribute, with `error` the final-commit flag: a successful
parse writes the value onto the selected widget and repositions the
markers; a `ParserError` is swallowed, except that on a final commit
(`error=True`) `update_editor` repositions the markers and rebuilds the
property window, reseeding the editor's text from the widget's current
(unchanged) value. -/
def cb_property_changed (parse : String → Option (Int × Int)) (error : Bool)
    (s : PropEditState) : PropEditState :=
  match parse s.editor_text with
  | some value =>
      let g := { s.geom with x := value.1, y := value.2 }
      { s with geom := g, markers := position_markers g }
  | none =>
      if error then
        { s with markers := position_markers s.geom,
                 editor_text := format_point s.geom.x s.geom.y }
      else s

/-- C6: a parse failure during a live (non-final) edit changes nothing —
value and editor text keep their state; a parse failure on a final
commit leaves the attribute value unchanged and redraws the editor from
the authoritative current value; a successful parse writes the value
back and repositions the markers, leaving the editor text alone. -/
theorem cb_property_changed_contract (parse : String → Option (Int × Int))
    (s : PropEditState) :
    (parse s.editor_text = none → cb_property_changed parse false s = s) ∧
    (parse s.editor_text = none →
      (cb_property_changed parse true s).geom = s.geom ∧
      (cb_property_changed parse true s).editor_text = format_point s.geom.x s.geom.y ∧
      (cb_property_changed parse true s).markers = position_markers s.geom) ∧
    (∀ (value : Int × Int) (error : Bool), parse s.editor_text = some value →
      (cb_property_changed parse error s).geom = { s.geom with x := value.1, y := value.2 } ∧
      (cb_property_changed parse error s).markers =
        position_markers { s.geom with x := value.1, y := value.2 } ∧
      (cb_property_changed parse error s).editor_text = s.editor_text) := by
  refine ⟨?_, ?_, ?_⟩
  · intro h
    simp [cb_property_changed, h]
  · intro h
    simp [cb_property_changed, h]
  · intro value error h
    simp [cb_property_changed, h]

/-- A parse function recognising exactly the text `12, 34`. -/
def sampleParse (text : String) : Option (Int × Int) :=
  if text = "12, 34" then some (12, 34) else none

/-- A property-editing state whose editor holds unparseable text. -/
def samplePropState : PropEditState :=
  { geom := { x := 100, y := 100, width := 50, height := 50 },
    editor_text := "abc",
    markers := position_markers { x := 100, y := 100, width := 50, height := 50 } }

/-- Witness for C6: with the editor holding `abc` (which does not
parse), a live edit leaves everything unchanged. -/
theorem cb_property_changed_contract_witness :
    cb_property_changed sampleParse false samplePropState = samplePropState :=
  (cb_property_changed_contract sampleParse samplePropState).1 (by rfl)

/-!
File opening. -/

/-- Failures of the external loader during `pychan.loadXML`: a missing
file (`IOError`), malformed XML (`SAXParseException`), or a
schema-level error (`GuiXMLError`). -/
inductive LoadFailure where
  | ioError
  | saxParseException
  | guiXMLError (message : String)
deriving DecidableEq

/-- The typed, user-facing messages of `open_gui`'s handlers. -/
inductive UserMessage where
  | fileNotFound (filename : String)
  | couldNotParseXML
  | guiXML (message : String)
deriving DecidableEq

/-- The message each of `open_gui`'s three `except` clauses reports
through `error_dialog`. -/
def failure_message (filename : String) : LoadFailure → UserMessage
  | .ioError => .fileNotFound filename
  | .saxParseException => .couldNotParseXML
  | .guiXMLError message => .guiXML message

/-- The state `open_gui` touches: the tree under the edit window, the
current filename, and the widget list backing the selector drop-down. -/
structure FileState where
  edit_tree : Option WTree
  filename : Option String
  widgets : List Nat

mutual
/-- `EditorApplication.add_widget_to_list`: append the widget, then,
when it exposes a `children` sequence, each child's subtree in order
(pre-order).  A scroll area exposes `content`, not `children`, so only
the scroll widget itself is appended. -/
def add_widget_to_list : WTree → List Nat
  | .container i _ _ _ _ cs => i :: add_children_to_list cs
  | .scrollarea i _ _ _ _ _ => [i]
  | .leaf i _ _ _ _ => [i]

/-- The `for child in widget.children` loop of `add_widget_to_list`. -/
def add_children_to_list : WForest → List Nat
  | .nil => []
  | .cons c rest => add_widget_to_list c ++ add_children_to_list rest
end

/-- `EditorApplication.open_gui`, with the external `pychan.loadXML`
outcome passed in as `loaded`.  On success the loaded tree's widgets are
appended to the widget list, the edit window is cleared and the new tree
installed, and the filename recorded.  Each failure is caught before any
state was touched and reported as its typed message. -/
def open_gui (s : FileState) (filename : String)
    (loaded : Except LoadFailure WTree) : FileState × Option UserMessage :=
  match loaded with
  | .ok gui =>
      ({ edit_tree := some gui,
         filename := some filename,
         widgets := s.widgets ++ add_widget_to_list gui }, none)
  | .error e => (s, some (failure_message filename e))

/-- C5: every failing open attempt reports the typed message of its
failure kind and leaves the widget tree, the current filename and the
widget list exactly as they were. -/
theorem open_gui_failure_preserves_state (s : FileState) (filename : String)
    (e : LoadFailure) :
    (open_gui s filename (Except.error e)).1.edit_tree = s.edit_tree ∧
    (open_gui s filename (Except.error e)).1.filename = s.filename ∧
    (open_gui s filename (Except.error e)).1.widgets = s.widgets ∧
    (open_gui s filename (Except.error e)).2 = some (failure_message filename e) :=
  ⟨rfl, rfl, rfl, rfl⟩

/-!
Palette insertion. -/

/-- What `tool_clicked` reads of the currently selected widget: its
size and whether its `addChild` accepts children (pychan raises
`RuntimeError` otherwise). -/
structure ParentInfo where
  wid : Nat
  width : Int
  height : Int
  can_contain : Bool
deriving DecidableEq

/-- The observable outcome of a successful palette insertion: the parent
the new widget went under, its size, and the selection afterwards. -/
structure InsertedWidget where
  parent : Nat
  width : Int
  height : Int
  selection : Nat
deriving DecidableEq

/-- `EditorApplication.tool_clicked`: the new widget (identity `newId`)
starts from the default 50×50.  With a selected widget, `addChild` is
attempted there first — a parent that cannot contain children raises
`RuntimeError`, which is reported and aborts the insertion — and then
each dimension is cut to `parent − 1` when the parent's dimension is
strictly below the default.  With no selection the widget goes under the
edit window at the default size.  The widget is added to the list and
becomes the selection. -/
def tool_clicked (editWindowId : Nat) (newId : Nat) (selected : Option ParentInfo) :
    Except Unit InsertedWidget :=
  let width : Int := 50
  let height : Int := 50
  match selected with
  | some p =>
      if p.can_contain then
        let width := if p.width < width then p.width - 1 else width
        let height := if p.height < height then p.height - 1 else height
        Except.ok { parent := p.wid, width := width, height := height, selection := newId }
      else Except.error ()
  | none =>
      Except.ok { parent := editWindowId, width := width, height := height,
                  selection := newId }

/-- Counterexample to C4 as stated: inserting into a selected 50×50
container yields a 50×50 widget (the clamp only fires when the parent
dimension is strictly below 50), while `min(default, parent − 1)` would
demand 49×49. -/
theorem tool_clicked_min_formula_fails :
    tool_clicked 0 7 (some { wid := 1, width := 50, height := 50, can_contain := true }) =
        Except.ok { parent := 1, width := 50, height := 50, selection := 7 } ∧
      ¬((50 : Int) = min 50 (50 - 1)) :=
  ⟨rfl, by decide⟩

/-- C4 (amended): inserting from the palette into a selected parent that
accepts children creates the widget with each dimension equal to
`parent − 1` when the parent's dimension is strictly less than the
default 50 and to the default 50 otherwise, inserts it under that
parent and makes it the selection; in particular a selected 30×30
container yields a 29×29 widget. -/
theorem tool_clicked_clamps_to_parent (editWindowId newId : Nat) (p : ParentInfo)
    (h : p.can_contain = true) :
    tool_clicked editWindowId newId (some p) =
        Except.ok { parent := p.wid,
                    width := if p.width < 50 then p.width - 1 else 50,
                    height := if p.height < 50 then p.height - 1 else 50,
                    selection := newId } ∧
      tool_clicked 0 9 (some { wid := 2, width := 30, height := 30, can_contain := true }) =
        Except.ok { parent := 2, width := 29, height := 29, selection := 9 } := by
  constructor
  · simp [tool_clicked, h]
  · rfl

/-- Witness for C4's amended theorem: the 30×30 scenario. -/
theorem tool_clicked_clamps_to_parent_witness :
    tool_clicked 0 9 (some { wid := 2, width := 30, height := 30, can_contain := true }) =
      Except.ok { parent := 2, width := 29, height := 29, selection := 9 } :=
  (tool_clicked_clamps_to_parent 0 9
    { wid := 2, width := 30, height := 30, can_contain := true } rfl).2

/-!
`EditContainer` (editor/gui/editcontainer.py). -/

/-- A child widget of an `EditContainer`: pychan position and size. -/
structure ECChild where
  x : Int
  y : Int
  width : Int
  height : Int
deriving DecidableEq

/-- `EditContainer.get_most_bottom_right_position`: running maxima over
the children of `x + width` and of `y + height`, both started at 0,
plus a 10-unit margin on each axis. -/
def get_most_bottom_right_position (children : List ECChild) : Int × Int :=
  let pos := children.foldl
    (fun (acc : Int × Int) child =>
      (max acc.1 (child.x + child.width), max acc.2 (child.y + child.height)))
    (0, 0)
  (pos.1 + 10, pos.2 + 10)

/-- `EditContainer.resize_to_content`, returning the container's new
`(width, height)`: the code sets `self.width = max(width,
self.parent.width)` but `self.height = max(height, self.parent.width)`
— the parent's *width* again, not its height. -/
def resize_to_content (parentWidth parentHeight : Int) (children : List ECChild) :
    Int × Int :=
  let wh := get_most_bottom_right_position children
  (max wh.1 parentWidth, max wh.2 parentWidth)

/-- C10's failing input: with a 100×200 parent and no children,
`resize_to_content` yields a 100×100 container, whose height 100 is
smaller than the parent's height 200 — against the method's own
docstring ("not smaller than the parent") — because `self.height` is
computed from `self.parent.width`. -/
theorem resize_to_content_height_bug :
    resize_to_content 100 200 [] = (100, 100) ∧ (100 : Int) < 200 := by
  constructor
  · rfl
  · decide
